import Mathlib

/-!
Verification of the IELTS speaking-practice pipeline (`src/IELTS.py`).

The scorer `analyze_transcription` and the transcription wrapper
`transcribe_audio` are embedded shallowly:

* spaCy's output is modelled as a `Doc`: the ordered token list (each token
  carrying its lemma, coarse POS tag, `is_alpha` and `is_stop` flags) plus the
  number of sentence boundaries (`len(list(doc.sents))`).
* Python floats are modelled by exact rationals `ℚ`; every arithmetic constant
  in the scorer (`0.5`, `/10`, `/5`, `*9`, `*3`, `/3`) is exactly representable.
* Python's `/`, which raises `ZeroDivisionError` on a zero divisor, is modelled
  by `pyDiv` returning `Except PyError ℚ`; the two divisions the source guards
  with explicit conditionals are embedded as conditionals, the unguarded ones
  go through `pyDiv`.
* The returned Python dict sometimes omits the `word_count`/`sentence_count`
  keys (the guard-clause return at lines 71-77 has no such keys), so those
  fields of `ScoreReport` are `Option Nat`.
* `analyze_transcription` is instrumented with a count of calls to the spaCy
  annotator `nlp`, so that "the annotator is never invoked" is expressible.
* `transcribe_audio`'s external effects (opening/recording the audio file, the
  Google recognizer, the offline Sphinx recognizer) are modelled by an
  environment recording each call's outcome.
-/

namespace IELTS

/-- One spaCy token, restricted to the attributes the scorer reads:
`token.lemma_`, `token.pos_`, `token.is_alpha`, `token.is_stop`. -/
structure Token where
  lemma_ : String
  pos_ : String
  is_alpha : Bool
  is_stop : Bool
deriving DecidableEq, Repr

/-- The result of `nlp(transcription)`: the ordered tokens and
`len(list(doc.sents))`, the only two facts the scorer uses. -/
structure Doc where
  tokens : List Token
  sentence_count : Nat
deriving DecidableEq, Repr

/-- The one exception the embedded scorer can raise. -/
inductive PyError where
  | zeroDivisionError
deriving DecidableEq, Repr

/-- Python's true division `a / b`: raises `ZeroDivisionError` when `b = 0`. -/
def pyDiv (a b : ℚ) : Except PyError ℚ :=
  if b = 0 then .error .zeroDivisionError else .ok (a / b)

/-- `word_count = len([token for token in doc if token.is_alpha])` (line 82). -/
def word_count (doc : Doc) : Nat :=
  (doc.tokens.filter (fun t => t.is_alpha)).length

/-- `pos_counts.get(tag, 0)` where
`pos_counts = Counter([token.pos_ for token in doc if token.is_alpha])`
(lines 87, 91-93). -/
def posCount (doc : Doc) (tag : String) : Nat :=
  ((doc.tokens.filter (fun t => t.is_alpha)).filter (fun t => t.pos_ == tag)).length

/-- `verb_count = pos_counts.get("VERB", 0)` (line 91). -/
def verb_count (doc : Doc) : Nat := posCount doc "VERB"

/-- `noun_count = pos_counts.get("NOUN", 0)` (line 92). -/
def noun_count (doc : Doc) : Nat := posCount doc "NOUN"

/-- `adj_count = pos_counts.get("ADJ", 0)` (line 93). -/
def adj_count (doc : Doc) : Nat := posCount doc "ADJ"

/-- `grammar_variety = len(pos_counts)`: the number of distinct coarse POS tags
among alphabetic tokens (line 90). -/
def grammar_variety (doc : Doc) : Nat :=
  ((doc.tokens.filter (fun t => t.is_alpha)).map (fun t => t.pos_)).dedup.length

/-- `unique_words = len(set([token.lemma_.lower() for token in doc
if token.is_alpha and not token.is_stop]))` (line 96). -/
def unique_words (doc : Doc) : Nat :=
  ((doc.tokens.filter (fun t => t.is_alpha && !t.is_stop)).map
    (fun t => t.lemma_.toLower)).dedup.length

/-- `vocabulary_richness = unique_words / word_count if word_count > 0 else 0`
(line 97): this division is guarded in the source. -/
def vocabularyRichness (uw wc : Nat) : ℚ :=
  if 0 < wc then (uw : ℚ) / (wc : ℚ) else 0

/-- The four numeric outputs of the scoring block (lines 103-107). -/
structure Scores where
  fluency : ℚ
  grammar : ℚ
  vocabulary : ℚ
  total : ℚ
deriving DecidableEq, Repr

/-- Lines 97-107 of the source as a function of the intermediate measurements
`word_count`, `sentence_count`, `grammar_variety`, `verb_count`, `noun_count`,
`adj_count`, `unique_words`.  The divisions at lines 97 and 100 are guarded by
conditionals in the source; the divisions by `word_count` inside
`grammar_score` (line 104) and `vocabulary_score` (line 105) are not, so they
go through `pyDiv` and can raise. -/
def scoresFromCounts (wc sc gv verb noun adj uw : Nat) : Except PyError Scores :=
  let vr : ℚ := vocabularyRichness uw wc
  let avg_words_per_sentence : ℚ := if 0 < sc then (wc : ℚ) / (sc : ℚ) else 0
  let fluency_score : ℚ := min 9 ((wc : ℚ) / 10 + avg_words_per_sentence / 5)
  match pyDiv ((verb : ℚ) + (noun : ℚ)) (wc : ℚ) with
  | .error e => .error e
  | .ok gratio =>
    let grammar_score : ℚ := min 9 ((gv : ℚ) * (1 / 2) + gratio * 9)
    match pyDiv (adj : ℚ) (wc : ℚ) with
    | .error e => .error e
    | .ok aratio =>
      let vocabulary_score : ℚ := min 9 (vr * 9 + aratio * 3)
      let total_score : ℚ := (fluency_score + grammar_score + vocabulary_score) / 3
      .ok ⟨fluency_score, grammar_score, vocabulary_score, total_score⟩

/-- `"Try to speak more fluently with longer sentences."` (line 112). -/
def fluencyRemark : String := "Try to speak more fluently with longer sentences."

/-- `"Focus on using varied sentence structures and grammar."` (line 114). -/
def grammarRemark : String := "Focus on using varied sentence structures and grammar."

/-- `"Try to use more diverse vocabulary and descriptive words."` (line 116). -/
def vocabularyRemark : String := "Try to use more diverse vocabulary and descriptive words."

/-- `"Good job! Keep practicing to maintain your level."` (line 119). -/
def encouragementRemark : String := "Good job! Keep practicing to maintain your level."

/-- The `feedback_parts` list after the three threshold checks
(lines 110-116): one fixed remark per sub-score strictly below 5. -/
def feedback_parts (f g v : ℚ) : List String :=
  (if f < 5 then [fluencyRemark] else []) ++
  (if g < 5 then [grammarRemark] else []) ++
  (if v < 5 then [vocabularyRemark] else [])

/-- Lines 110-121: if no remark was appended, append the encouragement remark;
then `feedback = " ".join(feedback_parts)`. -/
def buildFeedback (f g v : ℚ) : String :=
  let parts := feedback_parts f g v
  let parts := if parts = [] then [encouragementRemark] else parts
  String.intercalate " " parts

/-- The dict returned by `analyze_transcription`.  The guard-clause return
(lines 71-77) carries no `word_count`/`sentence_count` keys, hence the
`Option Nat` fields.  NB the key `"vocabulary_richness"` of the returned dict
holds the vocabulary *score* (line 131), not the type-token ratio. -/
structure ScoreReport where
  fluency : ℚ
  grammar_score : ℚ
  vocabulary_richness : ℚ
  total_score : ℚ
  word_count : Option Nat
  sentence_count : Option Nat
  feedback : String
deriving DecidableEq, Repr

/-- The guard-clause return value (lines 71-77): all scores zero, a fixed
feedback string, and no `word_count`/`sentence_count` keys. -/
def failureReport : ScoreReport :=
  { fluency := 0
    grammar_score := 0
    vocabulary_richness := 0
    total_score := 0
    word_count := none
    sentence_count := none
    feedback := "Unable to analyze - transcription failed" }

/-- Lines 79-136: score an annotated document and assemble the returned dict. -/
def scoreDoc (doc : Doc) : Except PyError ScoreReport :=
  let wc := word_count doc
  let sc := doc.sentence_count
  match scoresFromCounts wc sc (grammar_variety doc) (verb_count doc)
      (noun_count doc) (adj_count doc) (unique_words doc) with
  | .error e => .error e
  | .ok s =>
      .ok { fluency := s.fluency
            grammar_score := s.grammar
            vocabulary_richness := s.vocabulary
            total_score := s.total
            word_count := some wc
            sentence_count := some sc
            feedback := buildFeedback s.fluency s.grammar s.vocabulary }

/-- The guard condition of line 70:
`not transcription or transcription.startswith("Could not") or
transcription.startswith("Error")`.  Python's `str.startswith` is modelled as
a character-list prefix test. -/
def isFailureSentinel (t : String) : Bool :=
  t == "" || "Could not".data.isPrefixOf t.data || "Error".data.isPrefixOf t.data

/-- The observable outcome of one `analyze_transcription` call: the returned
dict (or the raised exception) together with the number of times the spaCy
annotator `nlp` was invoked. -/
structure AnalysisOutcome where
  result : Except PyError ScoreReport
  nlpCalls : Nat

/-- `analyze_transcription(transcription)` (lines 68-136), parameterised by the
annotator `nlp`.  The guard clause returns immediately without calling `nlp`;
otherwise `nlp` is called exactly once (line 79) and the document is scored. -/
def analyze_transcription (transcription : String) (nlp : String → Doc) :
    AnalysisOutcome :=
  if isFailureSentinel transcription then
    ⟨.ok failureReport, 0⟩
  else
    let doc := nlp transcription
    ⟨scoreDoc doc, 1⟩

/-- Outcome of `r.recognize_google(audio)` (lines 38-43): a transcription, or
`sr.UnknownValueError`, or `sr.RequestError`, or some other exception (which
the outer handler at line 52 turns into the generic error sentinel). -/
inductive GoogleResult where
  | success (text : String)
  | unknownValueError
  | requestError
  | otherError (message : String)
deriving DecidableEq, Repr

deriving instance DecidableEq for Except

/-- The outcomes of the external calls a single `transcribe_audio` run makes:
opening/recording the audio file (lines 31-34; `.error msg` when it raises),
the Google recognizer, and the offline Sphinx recognizer (line 46; `none` when
it raises, caught by the bare `except` at line 49). -/
structure TranscribeEnv where
  load : Except String Unit
  google : GoogleResult
  sphinx : Option String
deriving DecidableEq, Repr

/-- The observable outcome of `transcribe_audio`: the returned string and the
number of times the offline Sphinx engine was attempted. -/
structure TranscribeOutcome where
  result : String
  sphinxAttempts : Nat
deriving DecidableEq, Repr

/-- The recognition-failure sentinel (line 42). -/
def couldNotUnderstandSentinel : String :=
  "Could not understand the audio clearly. Please try speaking more clearly."

/-- The transport-failure sentinel returned when the offline fallback also
fails (line 50). -/
def serviceUnavailableSentinel : String :=
  "Transcription service unavailable. Please check your internet connection."

/-- The generic processing-error sentinel (line 54), embedding the fault text. -/
def errorProcessingSentinel (message : String) : String :=
  "Error processing audio: " ++ message

/-- `transcribe_audio(file_path)` (lines 27-54) as a function of the outcomes
of its external calls.  Every path returns a string; no exception escapes. -/
def transcribe_audio (env : TranscribeEnv) : TranscribeOutcome :=
  match env.load with
  | .error e => ⟨errorProcessingSentinel e, 0⟩
  | .ok _ =>
    match env.google with
    | .success t => ⟨t, 0⟩
    | .unknownValueError => ⟨couldNotUnderstandSentinel, 0⟩
    | .otherError e => ⟨errorProcessingSentinel e, 0⟩
    | .requestError =>
      match env.sphinx with
      | some t => ⟨t, 1⟩
      | none => ⟨serviceUnavailableSentinel, 1⟩

/-- A one-word annotated document: spaCy's analysis of `"hello"`. -/
def helloDoc : Doc :=
  { tokens := [{ lemma_ := "hello", pos_ := "INTJ", is_alpha := true, is_stop := false }]
    sentence_count := 1 }

/-- An annotator stub returning `helloDoc` for every input, used to instantiate
universally quantified theorems at a concrete annotator. -/
def helloNlp : String → Doc := fun _ => helloDoc

/-- The report `analyze_transcription` produces on `"hello"` under `helloNlp`:
one alphabetic non-stopword token, one sentence. -/
def helloReport : ScoreReport :=
  { fluency := 3 / 10
    grammar_score := 1 / 2
    vocabulary_richness := 9
    total_score := 49 / 15
    word_count := some 1
    sentence_count := some 1
    feedback := String.intercalate " " [fluencyRemark, grammarRemark] }

/-- A punctuation-only annotated document: one non-alphabetic token, one
sentence — zero alphabetic tokens. -/
def punctDoc : Doc :=
  { tokens := [{ lemma_ := "...", pos_ := "PUNCT", is_alpha := false, is_stop := false }]
    sentence_count := 1 }

/-- An annotator stub returning `punctDoc` for every input. -/
def punctNlp : String → Doc := fun _ => punctDoc

/-! ## Helper lemmas -/

/-- Inverting a successful run of the scoring block: the divisor
`word_count` is positive and each output equals its defining expression. -/
theorem scoresFromCounts_ok_elim {wc sc gv verb noun adj uw : Nat} {s : Scores}
    (h : scoresFromCounts wc sc gv verb noun adj uw = .ok s) :
    0 < wc ∧
    s.fluency = min 9 ((wc : ℚ) / 10 + (if 0 < sc then (wc : ℚ) / (sc : ℚ) else 0) / 5) ∧
    s.grammar = min 9 ((gv : ℚ) * (1 / 2) + ((verb : ℚ) + (noun : ℚ)) / (wc : ℚ) * 9) ∧
    s.vocabulary = min 9 (vocabularyRichness uw wc * 9 + (adj : ℚ) / (wc : ℚ) * 3) ∧
    s.total = (s.fluency + s.grammar + s.vocabulary) / 3 := by
  by_cases hwc : (wc : ℚ) = 0
  · simp [scoresFromCounts, pyDiv, hwc] at h
  · have hpos : 0 < wc := Nat.pos_of_ne_zero (by exact_mod_cast hwc)
    simp only [scoresFromCounts, pyDiv, if_neg hwc] at h
    obtain rfl := (Except.ok.injEq _ _).mp h.symm
    exact ⟨hpos, rfl, rfl, rfl, rfl⟩

/-- Inverting a successful non-guarded run of `analyze_transcription`:
the returned dict is assembled from the scores of the annotated document. -/
theorem analyze_ok_elim {t : String} {nlp : String → Doc} {r : ScoreReport}
    (hs : isFailureSentinel t = false)
    (h : (analyze_transcription t nlp).result = .ok r) :
    ∃ s : Scores,
      scoresFromCounts (word_count (nlp t)) ((nlp t).sentence_count)
        (grammar_variety (nlp t)) (verb_count (nlp t)) (noun_count (nlp t))
        (adj_count (nlp t)) (unique_words (nlp t)) = .ok s ∧
      r = { fluency := s.fluency
            grammar_score := s.grammar
            vocabulary_richness := s.vocabulary
            total_score := s.total
            word_count := some (word_count (nlp t))
            sentence_count := some ((nlp t).sentence_count)
            feedback := buildFeedback s.fluency s.grammar s.vocabulary } := by
  simp only [analyze_transcription, hs, Bool.false_eq_true, if_false] at h
  rcases hsc : scoresFromCounts (word_count (nlp t)) ((nlp t).sentence_count)
      (grammar_variety (nlp t)) (verb_count (nlp t)) (noun_count (nlp t))
      (adj_count (nlp t)) (unique_words (nlp t)) with e | s
  · simp [scoreDoc, hsc] at h
  · refine ⟨s, rfl, ?_⟩
    simp [scoreDoc, hsc] at h
    exact h.symm

/-- Behaviour of the feedback builder (lines 110-121): the result is never
empty, equals the encouragement remark exactly when no sub-score is below 5,
and is otherwise the space-join of the per-score remark list. -/
theorem buildFeedback_spec (f g v : ℚ) :
    buildFeedback f g v ≠ "" ∧
    (buildFeedback f g v = encouragementRemark ↔ 5 ≤ f ∧ 5 ≤ g ∧ 5 ≤ v) ∧
    (¬(5 ≤ f ∧ 5 ≤ g ∧ 5 ≤ v) →
      buildFeedback f g v = String.intercalate " " (feedback_parts f g v)) := by
  by_cases hf : f < 5 <;> by_cases hg : g < 5 <;> by_cases hv : v < 5 <;>
    simp [buildFeedback, feedback_parts, hf, hg, hv, ← not_lt] <;> decide

/-- Filtering by a stronger boolean predicate yields at most as many
elements. -/
theorem length_filter_implies {α : Type} (p q : α → Bool) (l : List α)
    (h : ∀ a, p a = true → q a = true) :
    (l.filter p).length ≤ (l.filter q).length := by
  induction l with
  | nil => simp
  | cons a l ih =>
    simp only [List.filter_cons]
    by_cases hp : p a = true
    · simp only [hp, h a hp, if_true, List.length_cons]
      omega
    · by_cases hq : q a = true <;> simp [hp, hq] <;> omega

/-- Each sub-score and the total produced by a successful scoring run lie in
the closed interval `[0, 9]`. -/
theorem scores_bounds {wc sc gv verb noun adj uw : Nat} {s : Scores}
    (h : scoresFromCounts wc sc gv verb noun adj uw = .ok s) :
    (0 ≤ s.fluency ∧ s.fluency ≤ 9) ∧ (0 ≤ s.grammar ∧ s.grammar ≤ 9) ∧
    (0 ≤ s.vocabulary ∧ s.vocabulary ≤ 9) ∧ (0 ≤ s.total ∧ s.total ≤ 9) := by
  obtain ⟨hwc, hf, hg, hv, ht⟩ := scoresFromCounts_ok_elim h
  have havg : (0 : ℚ) ≤ if 0 < sc then (wc : ℚ) / (sc : ℚ) else 0 := by
    split <;> positivity
  have hvr : (0 : ℚ) ≤ vocabularyRichness uw wc := by
    unfold vocabularyRichness; split <;> positivity
  have hf01 : 0 ≤ s.fluency ∧ s.fluency ≤ 9 := by
    rw [hf]
    exact ⟨le_min (by norm_num) (by positivity), min_le_left _ _⟩
  have hg01 : 0 ≤ s.grammar ∧ s.grammar ≤ 9 := by
    rw [hg]
    exact ⟨le_min (by norm_num) (by positivity), min_le_left _ _⟩
  have hv01 : 0 ≤ s.vocabulary ∧ s.vocabulary ≤ 9 := by
    rw [hv]
    refine ⟨le_min (by norm_num) ?_, min_le_left _ _⟩
    have : (0 : ℚ) ≤ (adj : ℚ) / (wc : ℚ) * 3 := by positivity
    nlinarith
  refine ⟨hf01, hg01, hv01, ?_, ?_⟩
  · rw [ht]
    have := hf01.1; have := hg01.1; have := hv01.1
    linarith
  · rw [ht]
    have := hf01.2; have := hg01.2; have := hv01.2
    linarith

/-- Concrete evaluation of the scorer on the transcript "hello" under the
stub annotator, used to instantiate the claim theorems. -/
theorem helloReport_eval :
    (analyze_transcription "hello" helloNlp).result = .ok helloReport := by
  have hs : isFailureSentinel "hello" = false := by decide
  simp only [analyze_transcription, hs, Bool.false_eq_true, if_false]
  show scoreDoc (helloNlp "hello") = .ok helloReport
  have hwc : word_count (helloNlp "hello") = 1 := by decide
  have hsc : (helloNlp "hello").sentence_count = 1 := by decide
  have hgv : grammar_variety (helloNlp "hello") = 1 := by decide
  have hverb : verb_count (helloNlp "hello") = 0 := by decide
  have hnoun : noun_count (helloNlp "hello") = 0 := by decide
  have hadj : adj_count (helloNlp "hello") = 0 := by decide
  have huw : unique_words (helloNlp "hello") = 1 := by decide
  simp only [scoreDoc, scoresFromCounts, pyDiv, hwc, hsc, hgv, hverb, hnoun, hadj,
    huw, vocabularyRichness]
  norm_num [min_def, helloReport, buildFeedback, feedback_parts, fluencyRemark,
    grammarRemark, vocabularyRemark, encouragementRemark]
  decide

/-! ## Claim theorems -/

/-- C1: for every transcript that is empty or starts with a recognized failure
sentinel ("Could not" or "Error"), `analyze_transcription` returns the
all-zero report with the fixed failure feedback string, and the spaCy
annotator is never invoked. -/
theorem guard_clause_zero_report (t : String) (nlp : String → Doc)
    (h : t = "" ∨ "Could not".data.isPrefixOf t.data = true ∨
      "Error".data.isPrefixOf t.data = true) :
    analyze_transcription t nlp =
      ⟨.ok { fluency := 0
             grammar_score := 0
             vocabulary_richness := 0
             total_score := 0
             word_count := none
             sentence_count := none
             feedback := "Unable to analyze - transcription failed" }, 0⟩ := by
  have hg : isFailureSentinel t = true := by
    rcases h with h | h | h
    · subst h; decide
    · simp [isFailureSentinel, h]
    · simp [isFailureSentinel, h]
  simp [analyze_transcription, hg, failureReport]

/-- Witness for C1 at the empty transcript. -/
theorem guard_clause_zero_report_witness :
    analyze_transcription "" helloNlp =
      ⟨.ok { fluency := 0
             grammar_score := 0
             vocabulary_richness := 0
             total_score := 0
             word_count := none
             sentence_count := none
             feedback := "Unable to analyze - transcription failed" }, 0⟩ :=
  guard_clause_zero_report "" helloNlp (Or.inl rfl)

/-- C2 (code bug): a punctuation-only transcript passes the guard, its
annotation has zero alphabetic tokens, and the scorer raises
`ZeroDivisionError` at the unguarded `(verb_count + noun_count) / word_count`
of line 104 instead of defaulting the ratio to 0. -/
theorem punctuation_only_raises_zero_division :
    isFailureSentinel "..." = false ∧
    word_count punctDoc = 0 ∧
    (analyze_transcription "..." punctNlp).result = .error .zeroDivisionError ∧
    (analyze_transcription "..." punctNlp).nlpCalls = 1 := by
  refine ⟨by decide, by decide, by decide, ?_⟩
  simp [analyze_transcription, show isFailureSentinel "..." = false from by decide]

/-- C3 (code bug): the transport-failure sentinel returned by
`transcribe_audio` when the offline fallback also fails starts with
"Transcription", so the guard clause of line 70 does not recognize it and the
scorer passes it to the spaCy annotator — tokenization is attempted. -/
theorem service_unavailable_sentinel_is_tokenized :
    (transcribe_audio ⟨.ok (), .requestError, none⟩).result =
      serviceUnavailableSentinel ∧
    isFailureSentinel serviceUnavailableSentinel = false ∧
    ∀ nlp : String → Doc,
      (analyze_transcription serviceUnavailableSentinel nlp).nlpCalls = 1 := by
  refine ⟨rfl, by decide, fun nlp => ?_⟩
  simp [analyze_transcription,
    show isFailureSentinel serviceUnavailableSentinel = false from by decide]

/-- C4: on every non-guarded run that returns a report, the three sub-scores
and the total lie in the closed interval `[0, 9]`. -/
theorem ok_scores_in_range (t : String) (nlp : String → Doc) (r : ScoreReport)
    (hs : isFailureSentinel t = false)
    (h : (analyze_transcription t nlp).result = .ok r) :
    (0 ≤ r.fluency ∧ r.fluency ≤ 9) ∧
    (0 ≤ r.grammar_score ∧ r.grammar_score ≤ 9) ∧
    (0 ≤ r.vocabulary_richness ∧ r.vocabulary_richness ≤ 9) ∧
    (0 ≤ r.total_score ∧ r.total_score ≤ 9) := by
  obtain ⟨s, hsc, hr⟩ := analyze_ok_elim hs h
  subst hr
  simpa using scores_bounds hsc

/-- Witness for C4 at the transcript "hello" under the stub annotator. -/
theorem ok_scores_in_range_witness :
    (0 ≤ helloReport.fluency ∧ helloReport.fluency ≤ 9) ∧
    (0 ≤ helloReport.grammar_score ∧ helloReport.grammar_score ≤ 9) ∧
    (0 ≤ helloReport.vocabulary_richness ∧ helloReport.vocabulary_richness ≤ 9) ∧
    (0 ≤ helloReport.total_score ∧ helloReport.total_score ≤ 9) :=
  ok_scores_in_range "hello" helloNlp helloReport (by decide) helloReport_eval

/-- C5: whenever `analyze_transcription` returns a report, its total score is
the arithmetic mean of the three sub-scores (exactly, over ℚ). -/
theorem total_score_is_mean (t : String) (nlp : String → Doc) (r : ScoreReport)
    (h : (analyze_transcription t nlp).result = .ok r) :
    r.total_score = (r.fluency + r.grammar_score + r.vocabulary_richness) / 3 := by
  by_cases hs : isFailureSentinel t = true
  · simp only [analyze_transcription, hs, if_true] at h
    obtain rfl := (Except.ok.injEq _ _).mp h
    norm_num [failureReport]
  · have hs' : isFailureSentinel t = false := by simpa using hs
    obtain ⟨s, hsc, hr⟩ := analyze_ok_elim hs' h
    obtain ⟨-, -, -, -, ht⟩ := scoresFromCounts_ok_elim hsc
    subst hr
    simpa using ht

/-- Witness for C5 at the transcript "hello" under the stub annotator. -/
theorem total_score_is_mean_witness :
    helloReport.total_score =
      (helloReport.fluency + helloReport.grammar_score +
        helloReport.vocabulary_richness) / 3 :=
  total_score_is_mean "hello" helloNlp helloReport helloReport_eval

/-- C6: on every non-guarded run the feedback is non-empty, equals the single
encouragement remark exactly when all three sub-scores are at least 5, and is
otherwise the space-joined list of one fixed remark per sub-score below 5. -/
theorem feedback_characterisation (t : String) (nlp : String → Doc)
    (r : ScoreReport) (hs : isFailureSentinel t = false)
    (h : (analyze_transcription t nlp).result = .ok r) :
    r.feedback ≠ "" ∧
    (r.feedback = encouragementRemark ↔
      5 ≤ r.fluency ∧ 5 ≤ r.grammar_score ∧ 5 ≤ r.vocabulary_richness) ∧
    (¬(5 ≤ r.fluency ∧ 5 ≤ r.grammar_score ∧ 5 ≤ r.vocabulary_richness) →
      r.feedback = String.intercalate " "
        (feedback_parts r.fluency r.grammar_score r.vocabulary_richness)) := by
  obtain ⟨s, hsc, hr⟩ := analyze_ok_elim hs h
  subst hr
  simpa using buildFeedback_spec s.fluency s.grammar s.vocabulary

/-- Witness for C6 at the transcript "hello" under the stub annotator. -/
theorem feedback_characterisation_witness :
    helloReport.feedback ≠ "" ∧
    (helloReport.feedback = encouragementRemark ↔
      5 ≤ helloReport.fluency ∧ 5 ≤ helloReport.grammar_score ∧
        5 ≤ helloReport.vocabulary_richness) ∧
    (¬(5 ≤ helloReport.fluency ∧ 5 ≤ helloReport.grammar_score ∧
        5 ≤ helloReport.vocabulary_richness) →
      helloReport.feedback = String.intercalate " "
        (feedback_parts helloReport.fluency helloReport.grammar_score
          helloReport.vocabulary_richness)) :=
  feedback_characterisation "hello" helloNlp helloReport (by decide) helloReport_eval

/-- C7: feeding the Scenario-B measurements (wordCount 9, sentenceCount 2,
grammar variety 7, two verbs, two nouns, one adjective, eight unique lemmas)
to the scoring block yields fluency 9/5 = 1.8, grammar 15/2 = 7.5, vocabulary
25/3 ≈ 8.33 and total 529/90 ≈ 5.88, the mean of the three. -/
theorem scenario_b_scores :
    scoresFromCounts 9 2 7 2 2 1 8 =
      .ok { fluency := 9 / 5, grammar := 15 / 2, vocabulary := 25 / 3,
            total := 529 / 90 } ∧
    (9 : ℚ) / 5 = 1.8 ∧ (15 : ℚ) / 2 = 7.5 ∧
    (25 : ℚ) / 3 = min 9 ((8 : ℚ) / 9 * 9 + 1 / 9 * 3) ∧
    (529 : ℚ) / 90 = (9 / 5 + 15 / 2 + 25 / 3) / 3 := by
  refine ⟨?_, by norm_num, by norm_num, ?_, by norm_num⟩
  · simp only [scoresFromCounts, pyDiv, vocabularyRichness]
    norm_num [min_def]
  · rw [min_eq_right (by norm_num)]
    norm_num

/-- C8 counterexample: the guard-clause report returned for the empty
transcript carries no word count and no sentence count at all (the dict keys
are absent), rather than carrying them with value 0. -/
theorem guard_report_omits_counts :
    (analyze_transcription "" helloNlp).result = .ok failureReport ∧
    failureReport.word_count = none ∧
    failureReport.sentence_count = none ∧
    failureReport.word_count ≠ some 0 ∧
    failureReport.sentence_count ≠ some 0 := by
  decide

/-- C8 (amended): every returned report either comes from the guard clause —
then both count keys are absent and reading them with the caller's default of
0 (`analysis.get(..., 0)`, lines 240-241) yields 0 — or carries the word and
sentence counts measured on the annotated input. -/
theorem report_counts_reflect_annotation (t : String) (nlp : String → Doc)
    (r : ScoreReport) (h : (analyze_transcription t nlp).result = .ok r) :
    (isFailureSentinel t = true ∧ r.word_count = none ∧ r.sentence_count = none ∧
      r.word_count.getD 0 = 0 ∧ r.sentence_count.getD 0 = 0) ∨
    (isFailureSentinel t = false ∧ r.word_count = some (word_count (nlp t)) ∧
      r.sentence_count = some ((nlp t).sentence_count)) := by
  by_cases hs : isFailureSentinel t = true
  · left
    simp only [analyze_transcription, hs, if_true] at h
    obtain rfl := (Except.ok.injEq _ _).mp h
    exact ⟨hs, rfl, rfl, rfl, rfl⟩
  · right
    have hs' : isFailureSentinel t = false := by simpa using hs
    obtain ⟨s, hsc, hr⟩ := analyze_ok_elim hs' h
    subst hr
    exact ⟨hs', rfl, rfl⟩

/-- Witness for C8 (amended) at the empty transcript. -/
theorem report_counts_reflect_annotation_witness :
    (isFailureSentinel "" = true ∧ failureReport.word_count = none ∧
      failureReport.sentence_count = none ∧
      failureReport.word_count.getD 0 = 0 ∧
      failureReport.sentence_count.getD 0 = 0) ∨
    (isFailureSentinel "" = false ∧
      failureReport.word_count = some (word_count (helloNlp "")) ∧
      failureReport.sentence_count = some ((helloNlp "").sentence_count)) :=
  report_counts_reflect_annotation "" helloNlp failureReport (by decide)

/-- C9: `transcribe_audio` is total over every combination of external-call
outcomes — each path returns a string, recognition failure yields the fixed
sentinel, a transport failure triggers exactly one offline attempt before the
fallback sentinel, and the offline engine is never attempted more than once. -/
theorem transcribe_audio_fails_soft (l : Except String Unit)
    (g : GoogleResult) (s : Option String) (e t : String) :
    transcribe_audio ⟨.error e, g, s⟩ = ⟨errorProcessingSentinel e, 0⟩ ∧
    transcribe_audio ⟨.ok (), .success t, s⟩ = ⟨t, 0⟩ ∧
    transcribe_audio ⟨.ok (), .unknownValueError, s⟩ =
      ⟨couldNotUnderstandSentinel, 0⟩ ∧
    transcribe_audio ⟨.ok (), .otherError e, s⟩ = ⟨errorProcessingSentinel e, 0⟩ ∧
    transcribe_audio ⟨.ok (), .requestError, some t⟩ = ⟨t, 1⟩ ∧
    transcribe_audio ⟨.ok (), .requestError, none⟩ =
      ⟨serviceUnavailableSentinel, 1⟩ ∧
    (transcribe_audio ⟨l, g, s⟩).sphinxAttempts ≤ 1 := by
  refine ⟨rfl, rfl, rfl, rfl, rfl, rfl, ?_⟩
  rcases l with e' | u
  · simp [transcribe_audio]
  · cases g <;> cases s <;> simp [transcribe_audio]

/-- C10: the number of distinct lowercased lemmas of alphabetic non-stopword
tokens never exceeds the number of alphabetic tokens, so the type-token ratio
lies in `[0, 1]` and its 9-weighted term never exceeds 9 even before the
clamp. -/
theorem vocabulary_richness_unit_interval (doc : Doc) :
    unique_words doc ≤ word_count doc ∧
    0 ≤ vocabularyRichness (unique_words doc) (word_count doc) ∧
    vocabularyRichness (unique_words doc) (word_count doc) ≤ 1 ∧
    vocabularyRichness (unique_words doc) (word_count doc) * 9 ≤ 9 := by
  have hle : unique_words doc ≤ word_count doc := by
    unfold unique_words word_count
    calc ((doc.tokens.filter (fun t => t.is_alpha && !t.is_stop)).map
            (fun t => t.lemma_.toLower)).dedup.length
        ≤ ((doc.tokens.filter (fun t => t.is_alpha && !t.is_stop)).map
            (fun t => t.lemma_.toLower)).length :=
          (List.dedup_sublist _).length_le
      _ = (doc.tokens.filter (fun t => t.is_alpha && !t.is_stop)).length :=
          List.length_map _ _
      _ ≤ (doc.tokens.filter (fun t => t.is_alpha)).length :=
          length_filter_implies _ _ _
            (fun a ha => by
              simpa using (Bool.and_eq_true _ _).mp ha |>.1)
  have h01 : 0 ≤ vocabularyRichness (unique_words doc) (word_count doc) ∧
      vocabularyRichness (unique_words doc) (word_count doc) ≤ 1 := by
    unfold vocabularyRichness
    split
    · next hpos =>
      constructor
      · positivity
      · rw [div_le_one (by exact_mod_cast hpos)]
        exact_mod_cast hle
    · norm_num
  exact ⟨hle, h01.1, h01.2, by nlinarith [h01.1, h01.2]⟩

end IELTS
